import Mathlib

/-!
Verification of the key-resolution logic of `src/ApiKeyAJM/ApiKeyAJM.py`.

The development shallowly embeds the module: Python values stored in
`api_key` become `JsonValue` (Python `None` is `JsonValue.null`), Python
exceptions become the `Err` inductive, the local file system becomes an
association list from paths to contents, and the HTTP transport becomes a
function from (url, username, password) to a response or connection
failure.  Construction of a resolver is modelled as explicit state
passing: every `__init__` step returns either the finished object state or
the exception together with the object state at the moment of the raise.
External collaborators (the JSON parser `json.load`, `str.strip`,
`pathlib.Path.suffix`, the `validators.url` predicate and the `requests`
transport) are modelled executably; `validators.url` and the network are
parameters, since the source uses them as opaque dependencies.
-/

/-- Python/JSON values as stored in `api_key` or produced by `json.load`.
`null` doubles as Python `None`. Numbers are modelled as integers, which
covers every value the claims mention. -/
inductive JsonValue where
  | null
  | bool (b : Bool)
  | num (n : Int)
  | str (s : String)
  | arr (xs : List JsonValue)
  | obj (fields : List (String × JsonValue))

/-- Python truthiness of a stored value (`if not self.api_key:` etc.). -/
def JsonValue.truthy : JsonValue → Bool
  | .null => false
  | .bool b => b
  | .num n => n != 0
  | .str s => s != ""
  | .arr xs => !xs.isEmpty
  | .obj fields => !fields.isEmpty

/-- Python exceptions raised by the module, with their messages. -/
inductive Err where
  | typeError (msg : String)
  | attributeError (msg : String)
  | fileNotFoundError (msg : String)
  | keyError (key : String)
  | validationError (msg : String)
  | requestException (body : String)
  | connectionError (msg : String)
  | notImplementedError (msg : String)
  | jsonDecodeError
  | ioError (msg : String)

/-- Coarse classification of an `Err`, used to state concrete outcomes. -/
inductive ErrTag where
  | typeErr | attrErr | fileNotFound | keyErr | validationErr
  | requestErr | connErr | notImplErr | jsonDecodeErr | ioErr
deriving DecidableEq

def Err.tag : Err → ErrTag
  | .typeError _ => .typeErr
  | .attributeError _ => .attrErr
  | .fileNotFoundError _ => .fileNotFound
  | .keyError _ => .keyErr
  | .validationError _ => .validationErr
  | .requestException _ => .requestErr
  | .connectionError _ => .connErr
  | .notImplementedError _ => .notImplErr
  | .jsonDecodeError => .jsonDecodeErr
  | .ioError _ => .ioErr

/-! ## Model of `pathlib.Path` name and suffix -/

/-- Final path component, as `PurePath.name`: everything after the last
slash (the model covers paths without trailing slashes, the only kind the
source is given). -/
def pathName (p : String) : String :=
  String.mk ((p.toList.reverse.takeWhile (fun c => c != '/')).reverse)

/-- Index of the last occurrence of `c` in `cs`, if any (Python `str.rfind`). -/
def rfindChar (cs : List Char) (c : Char) : Option Nat :=
  (List.range cs.length).foldl
    (fun acc i => if cs.get? i == some c then some i else acc) none

/-- `PurePath.suffix`: the extension of the final component including the
dot, empty when the name has no dot, starts with its only dot, or ends in
a dot (CPython: `name[i:] if 0 < i < len(name) - 1 else ""` with
`i = name.rfind(".")`). -/
def pathSuffix (p : String) : String :=
  let name := (pathName p).toList
  match rfindChar name '.' with
  | some i => if 0 < i && i < name.length - 1 then String.mk (name.drop i) else ""
  | none => ""

/-! ## Model of `str.strip()` -/

/-- Python `str.strip()` with no arguments: remove leading and trailing
whitespace. -/
def pyStrip (s : String) : String :=
  String.mk (((s.toList.dropWhile Char.isWhitespace).reverse.dropWhile
    Char.isWhitespace).reverse)

/-! ## Model of the JSON parser (`json.load` / `response.json()`)

The source treats the parser as an opaque dependency; this executable
model covers objects, arrays, strings with simple escapes, integers,
booleans and null, which is every document shape the claims touch. -/

def skipWs (cs : List Char) : List Char :=
  cs.dropWhile (fun c => c == ' ' || c == '\n' || c == '\t' || c == '\r')

def unescapeChar (c : Char) : Char :=
  if c == 'n' then '\n' else if c == 't' then '\t'
  else if c == 'r' then '\r' else c

def parseStrBody : List Char → Option (String × List Char)
  | [] => none
  | '"' :: rest => some ("", rest)
  | '\\' :: e :: rest =>
    (parseStrBody rest).map (fun p => (String.mk (unescapeChar e :: p.1.toList), p.2))
  | c :: rest =>
    (parseStrBody rest).map (fun p => (String.mk (c :: p.1.toList), p.2))

def digitsToNat (ds : List Char) : Nat :=
  ds.foldl (fun a c => a * 10 + (c.toNat - 48)) 0

/-- The character `{`. -/
def lbraceChar : Char := Char.ofNat 123

/-- The character `}`. -/
def rbraceChar : Char := Char.ofNat 125

mutual

def parseVal : Nat → List Char → Option (JsonValue × List Char)
  | 0, _ => none
  | fuel + 1, cs =>
    match skipWs cs with
    | [] => none
    | c :: rest =>
      if c == '"' then
        (parseStrBody rest).map (fun p => (JsonValue.str p.1, p.2))
      else if c == 't' then
        match rest with
        | 'r' :: 'u' :: 'e' :: r => some (.bool true, r)
        | _ => none
      else if c == 'f' then
        match rest with
        | 'a' :: 'l' :: 's' :: 'e' :: r => some (.bool false, r)
        | _ => none
      else if c == 'n' then
        match rest with
        | 'u' :: 'l' :: 'l' :: r => some (.null, r)
        | _ => none
      else if c == '[' then
        match skipWs rest with
        | ']' :: r => some (.arr [], r)
        | cs2 => (parseItems fuel cs2).map (fun p => (JsonValue.arr p.1, p.2))
      else if c == lbraceChar then
        match skipWs rest with
        | c2 :: r => if c2 == rbraceChar then some (.obj [], r)
                     else (parseFields fuel (c2 :: r)).map
                       (fun p => (JsonValue.obj p.1, p.2))
        | [] => none
      else if c == '-' then
        match rest.takeWhile Char.isDigit, rest.dropWhile Char.isDigit with
        | [], _ => none
        | ds, r => some (.num (-(digitsToNat ds : Int)), r)
      else if c.isDigit then
        some (.num (digitsToNat ((c :: rest).takeWhile Char.isDigit)),
              (c :: rest).dropWhile Char.isDigit)
      else none

def parseItems : Nat → List Char → Option (List JsonValue × List Char)
  | 0, _ => none
  | fuel + 1, cs =>
    match parseVal fuel cs with
    | none => none
    | some (v, rest) =>
      match skipWs rest with
      | ',' :: r => (parseItems fuel r).map (fun p => (v :: p.1, p.2))
      | ']' :: r => some ([v], r)
      | _ => none

def parseFields : Nat → List Char → Option (List (String × JsonValue) × List Char)
  | 0, _ => none
  | fuel + 1, cs =>
    match skipWs cs with
    | '"' :: rest =>
      match parseStrBody rest with
      | some (k, r1) =>
        match skipWs r1 with
        | ':' :: r2 =>
          match parseVal fuel r2 with
          | some (v, r3) =>
            match skipWs r3 with
            | ',' :: r4 => (parseFields fuel r4).map (fun p => ((k, v) :: p.1, p.2))
            | c :: r4 => if c == rbraceChar then some ([(k, v)], r4) else none
            | [] => none
          | none => none
        | _ => none
      | none => none
    | _ => none

end

/-- Model of `json.loads` on a whole document: `some` on success, `none`
where Python raises `JSONDecodeError`. -/
def jsonLoads (s : String) : Option JsonValue :=
  match parseVal (s.length + 1) s.toList with
  | some (v, rest) => if (skipWs rest).isEmpty then some v else none
  | none => none

/-- Python `dict` lookup over the parsed field list; a duplicated key keeps
the last occurrence, as `dict` construction does. -/
def dictGet (fields : List (String × JsonValue)) (k : String) : Option JsonValue :=
  (fields.reverse.find? (fun p => p.1 == k)).map (fun p => p.2)

/-- Python subscript `value[k]` with a string index: dictionary lookup
(`KeyError` when absent), `TypeError` on any non-mapping value. -/
def pySubscript (v : JsonValue) (k : String) : Except Err JsonValue :=
  match v with
  | .obj fields =>
    match dictGet fields k with
    | some x => .ok x
    | none => .error (.keyError k)
  | _ => .error (.typeError "value is not subscriptable by a string key")

/-! ## Model of the local file system -/

/-- The local file system: association of paths to file contents. -/
def FS : Type := List (String × String)

def fsRead (fs : FS) (p : String) : Option String :=
  (List.find? (fun q => q.1 == p) fs).map (fun q => q.2)

/-- `Path(p).is_file()`. -/
def isFile (fs : FS) (p : String) : Bool :=
  (fsRead fs p).isSome

/-! ## File strategy: `APIKeyFromFile` (and `_APIKeyBase.__init__` as run
by it)

`FileKwargs` models the keyword arguments; `none` means the keyword was
not passed (so `kwargs.get` yields Python `None`).  `FileResolver` is the
object state; `logger` records whether the `logger` attribute has been
assigned yet, and `reads` is the trace of files opened. -/

structure FileKwargs where
  logger : Bool := false
  api_key : Option JsonValue := none
  api_key_location : Option String := none
  file_mode : Option String := none
  json_key : Option String := none

structure FileResolver where
  logger : Bool := false
  api_key : JsonValue := JsonValue.null
  api_key_location : Option String := none
  file_mode_attr : Option String := none
  json_key : Option String := none
  reads : List String := []

/-- Truthiness of `self._json_key` (`if self._json_key:`): absent or empty
string is falsy. -/
def jsonKeyTruthy : Option String → Bool
  | some s => s != ""
  | none => false

/-- The `file_mode` property (lines 86-94): returns `self._file_mode` when
it is truthy and in `VALID_FILE_MODES = ["text", "json"]`, otherwise falls
through and returns `None`.  The suffix-mismatch branch only logs a
warning, which this pure model omits. -/
def FileResolver.file_mode (st : FileResolver) : Option String :=
  match st.file_mode_attr with
  | some m => if m == "text" || m == "json" then some m else none
  | none => none

/-- Record that a file was opened. -/
def recordRead (st : FileResolver) (p : String) : FileResolver :=
  { st with reads := st.reads ++ [p] }

/-- `APIKeyFromFile._fetch_api_key` (lines 114-134).  Chooses the key
path (argument first, falling back to `self.api_key_location`, each only
when truthy and an existing file), raising `FileNotFoundError` when
neither qualifies; then reads the file under the effective `file_mode`
property: `text` strips the contents, `json` parses and optionally
subscripts with `self._json_key`, any other property value falls through
the `if`/`elif` and returns `None`. -/
def fileFetchApiKey (fs : FS) (key_location : Option String)
    (st : FileResolver) : Except (Err × FileResolver) (JsonValue × FileResolver) :=
  let selfPathIfFile : Option String :=
    match st.api_key_location with
    | some l => if isFile fs l then some l else none
    | none => none
  let keyPath? : Option String :=
    match key_location with
    | some kl => if kl != "" && isFile fs kl then some kl else selfPathIfFile
    | none => selfPathIfFile
  match keyPath? with
  | none =>
    -- lines 107-112: the error is logged, then raised
    .error (.fileNotFoundError "key file not found", st)
  | some keyPath =>
    match fsRead fs keyPath with
    | none => .error (.ioError "could not open key file", st)
    | some contents =>
      let st := recordRead st keyPath
      if st.file_mode == some "text" then
        .ok (.str (pyStrip contents), st)
      else if st.file_mode == some "json" then
        match jsonLoads contents with
        | none => .error (.jsonDecodeError, st)
        | some doc =>
          if jsonKeyTruthy st.json_key then
            match pySubscript doc (st.json_key.getD "") with
            | .ok v => .ok (v, st)
            | .error e => .error (e, st)
          else .ok (doc, st)
      else .ok (.null, st)

/-- `_ensure_key_location_is_set` (lines 99-105).  Once `__init__` has run
line 74, `self.api_key_location` is a `Path`, and `Path` objects are
always truthy, so the branch that raises
`AttributeError` on a missing location (the ConfigurationError of
the spec) requires the attribute to be absent. -/
def ensureKeyLocationIsSet (default_key_location : Option String)
    (st : FileResolver) : Except (Err × FileResolver) FileResolver :=
  match st.api_key_location with
  | some _ => .ok st
  | none =>
    match default_key_location with
    | none => .error (.attributeError
        "api_key_location or api_key were not provided and DEFAULT_KEY_LOCATION not set.", st)
    | some d => .ok { st with api_key_location := some d }

/-- `_APIKeyBase.__init__` (lines 45-54) as executed for the file
subclass: assign the logger, assign `self.api_key = kwargs.get("api_key")`,
and when that is falsy run `_prep_for_fetch` (which is
`_ensure_key_location_is_set`) followed by `_fetch_api_key`. -/
def baseInitFile (default_key_location : Option String) (fs : FS)
    (kw : FileKwargs) (st : FileResolver) : Except (Err × FileResolver) FileResolver :=
  let st := { st with logger := true }
  let st := { st with api_key := kw.api_key.getD .null }
  if st.api_key.truthy then
    .ok st
  else
    match ensureKeyLocationIsSet default_key_location st with
    | .error e => .error e
    | .ok st =>
      match fileFetchApiKey fs none st with
      | .error e => .error e
      | .ok (v, st) => .ok { st with api_key := v }

/-- `APIKeyFromFile.__init__` (lines 73-84) followed by the `super()`
call.  Line 74 converts the `api_key_location` keyword to a `Path`;
Python raises `TypeError` when it is `None`.  Lines 75-81 infer a mode
from the suffix, except that the unrecognized-extension branch reads
`self.logger` before any logger has been assigned and so raises
`AttributeError`.  Line 82 then unconditionally overwrites the inferred
mode with `kwargs.get("file_mode", "text")`. -/
def APIKeyFromFile.init (default_key_location : Option String) (fs : FS)
    (kw : FileKwargs) : Except (Err × FileResolver) FileResolver :=
  match kw.api_key_location with
  | none => .error (.typeError
      "argument should be a str or an os.PathLike object, not NoneType", {})
  | some loc =>
    let st : FileResolver := { api_key_location := some loc }
    let step1 : Except (Err × FileResolver) FileResolver :=
      if pathSuffix loc == ".json" then .ok { st with file_mode_attr := some "json" }
      else if pathSuffix loc == ".txt" then .ok { st with file_mode_attr := some "text" }
      else .error (.attributeError
        "APIKeyFromFile object has no attribute logger", st)
    match step1 with
    | .error e => .error e
    | .ok st =>
      let st := { st with file_mode_attr := some (kw.file_mode.getD "text") }
      let st := { st with json_key := kw.json_key }
      baseInitFile default_key_location fs kw st

/-! ## Remote strategy: `RemoteAPIKey` -/

structure RemoteKwargs where
  logger : Bool := false
  api_key : Option JsonValue := none
  username : Option String := none
  password : Option String := none

/-- One HTTP response: `ok` is `response.ok` (success status) and `text`
is the response body. -/
structure HttpResponse where
  ok : Bool
  text : String

/-- Outcome of one `requests.post`: a response, or a raised
`ConnectionError`. -/
inductive NetResult where
  | resp (r : HttpResponse)
  | connFail (msg : String)

/-- The transport: from (url, username, password) to the outcome of the
POST the source issues with a JSON body of the credentials. -/
def Net : Type := String → String → String → NetResult

structure RemoteResolver where
  base_url : String := ""
  create_key_endpoint : String := ""
  full_url : String := ""
  api_key : JsonValue := JsonValue.null
  logger : Bool := false
  calls : List (String × String × String) := []

/-- `str(x)` for the optional validated URL: Python renders `None` as the
string `"None"` inside the f-string of `_construct_full_url`. -/
def pyStrOpt : Option String → String
  | some s => s
  | none => "None"

/-- The `validated_base_url` property (lines 158-162): raise
`validators.ValidationError` when the URL is truthy but fails the
`validators.url` check, else return `self._base_url or None`. -/
def validatedBaseUrl (urlValid : String → Bool) (base_url : String) :
    Except Err (Option String) :=
  if base_url != "" && !urlValid base_url then
    .error (.validationError "Invalid URL")
  else
    .ok (if base_url != "" then some base_url else none)

/-- `_construct_full_url` (lines 155-156). -/
def constructFullUrl (urlValid : String → Bool) (base_url endpoint : String) :
    Except Err String :=
  match validatedBaseUrl urlValid base_url with
  | .error e => .error e
  | .ok v => .ok (pyStrOpt v ++ "/" ++ endpoint)

/-- `RemoteAPIKey._fetch_api_key` (lines 165-177): one POST; on a success
status parse the body, on any other status raise
`requests.exceptions.RequestException(response.text)`, on a connection
failure re-raise `ConnectionError`. -/
def remoteFetchApiKey (net : Net) (full_url username password : String)
    (st : RemoteResolver) : Except (Err × RemoteResolver) (JsonValue × RemoteResolver) :=
  let st := { st with calls := st.calls ++ [(full_url, username, password)] }
  match net full_url username password with
  | .resp r =>
    if r.ok then
      match jsonLoads r.text with
      | some v => .ok (v, st)
      | none => .error (.jsonDecodeError, st)
    else .error (.requestException r.text, st)
  | .connFail msg => .error (.connectionError msg, st)

/-- Truthiness of the two credential keywords, the condition of line 149
(and, negated, of line 181). -/
def credsTruthy (kw : RemoteKwargs) : Bool :=
  (match kw.username with | some u => u != "" | none => false) &&
  (match kw.password with | some p => p != "" | none => false)

/-- `_APIKeyBase.__init__` as invoked from line 153 for the remote
subclass: `api_key` was passed explicitly, and `RemoteAPIKey` does not
override `_prep_for_fetch`, so a falsy key reaches the base class stub
and raises `NotImplementedError`. -/
def baseInitRemote (st : RemoteResolver) : Except (Err × RemoteResolver) RemoteResolver :=
  let st := { st with logger := true }
  if st.api_key.truthy then
    .ok st
  else
    .error (.notImplementedError "this is meant to be implemented by a subclass", st)

/-- Lines 150-151: when the fetched value is a mapping, replace it by
`self.api_key.get("api_key")` — Python `dict.get` yields `None` when the
entry is absent; any non-mapping value is kept as is. -/
def extractMappingKey (v : JsonValue) : JsonValue :=
  match v with
  | .obj fields => (dictGet fields "api_key").getD .null
  | _ => v

/-- Lines 150-153: extract `api_key` from a mapping result via
`dict.get` (yielding `None` when the entry is absent), then call
`super().__init__(api_key=self.api_key, **kwargs)` — which raises
`TypeError` when `kwargs` itself already contains `api_key`, since the
keyword is then passed twice. -/
def remoteAssignAndSuper (kw : RemoteKwargs) (v : JsonValue)
    (st : RemoteResolver) : Except (Err × RemoteResolver) RemoteResolver :=
  let st := { st with api_key := extractMappingKey v }
  match kw.api_key with
  | some _ => .error (.typeError
      "init got multiple values for keyword argument api_key", st)
  | none => baseInitRemote st

/-- `RemoteAPIKey.__init__` (lines 140-153): build the full URL
(validating the base URL), then assign
`self.api_key = None if not username or not password else self._fetch_api_key(username, password)`
and continue with lines 150-153. -/
def RemoteAPIKey.init (urlValid : String → Bool) (net : Net)
    (base_url create_key_endpoint : String) (kw : RemoteKwargs) :
    Except (Err × RemoteResolver) RemoteResolver :=
  let st : RemoteResolver := { base_url := base_url, create_key_endpoint := create_key_endpoint }
  match constructFullUrl urlValid base_url create_key_endpoint with
  | .error e => .error (e, st)
  | .ok url =>
    let st := { st with full_url := url }
    if credsTruthy kw then
      match remoteFetchApiKey net url (kw.username.getD "") (kw.password.getD "") st with
      | .error e => .error e
      | .ok (v, st) => remoteAssignAndSuper kw v st
    else
      remoteAssignAndSuper kw .null st

/-- `RemoteAPIKey.get_api_key` (lines 179-183): reject falsy credentials
with `AttributeError` before constructing the instance. -/
def RemoteAPIKey.getApiKey (urlValid : String → Bool) (net : Net)
    (base_url create_key_endpoint : String) (kw : RemoteKwargs) :
    Except Err JsonValue :=
  if !credsTruthy kw then
    .error (.attributeError "username or password were not passed in as kwargs")
  else
    match RemoteAPIKey.init urlValid net base_url create_key_endpoint kw with
    | .error (e, _) => .error e
    | .ok st => .ok st.api_key

/-! ## Outcome observers, used to state concrete counterexamples -/

/-- Outcome of a file-resolver construction: `none` when it succeeds,
the classification of the raised exception otherwise. -/
def fileInitOutcome : Except (Err × FileResolver) FileResolver → Option ErrTag
  | .ok _ => none
  | .error (e, _) => some e.tag

/-- Outcome of a remote-resolver construction. -/
def remoteInitOutcome : Except (Err × RemoteResolver) RemoteResolver → Option ErrTag
  | .ok _ => none
  | .error (e, _) => some e.tag

/-! ## Claims -/

/-- C1, counterexample: the claim says a resolver constructed with a
literal key exposes that literal regardless of other configuration; but a
remote resolver given the literal key `"lit"` (valid base URL, no
credentials) fails to construct at all: line 153 passes `api_key` both
explicitly and inside `**kwargs`, a `TypeError`. -/
theorem c1_counterexample :
    remoteInitOutcome (RemoteAPIKey.init (fun _ => true) (fun _ _ _ => .connFail "unused")
      "http://a.example" "make_key" { api_key := some (.str "lit") }) =
      some ErrTag.typeErr := by
  rfl

/-- C6, code-bug evaluation: constructing the file resolver with no
literal key, no location and no class default fails — but with the
`TypeError` of `Path(None)` at line 74, not the `AttributeError`
(the ConfigurationError of the spec) of lines 102-103, which line 74
makes unreachable. -/
theorem c6_bug_eval :
    fileInitOutcome (APIKeyFromFile.init none [] {}) = some ErrTag.typeErr := by
  rfl

/-- C2, code-bug evaluation: for a `.json` location with no explicit
`file_mode`, the effective mode is `"text"`, not the claimed `"json"`:
line 82 unconditionally overwrites the suffix-inferred mode with
`kwargs.get("file_mode", "text")`. (A literal key is supplied so that
construction completes; the mode is fixed before the `super()` call
either way.) -/
theorem c2_bug_eval :
    (match APIKeyFromFile.init none []
        { api_key := some (.str "lit"), api_key_location := some "key.json" } with
      | .ok st => some st.file_mode
      | .error _ => none) = some (some "text") := by
  rfl

/-- C5, counterexample: for the nonexistent path `"missing.cfg"` the
claim predicts `KeyFileNotFoundError`; the code instead raises
`AttributeError` at line 80, because the unrecognized-extension warning
reads `self.logger` before any logger has been assigned — the file
check is never reached. -/
theorem c5_counterexample :
    fileInitOutcome (APIKeyFromFile.init none [] { api_key_location := some "missing.cfg" }) =
      some ErrTag.attrErr := by
  rfl

/-- C8, counterexample: the claim predicts `MissingCredentialsError` for
every remote resolution without credentials; but direct construction with
a missing password fails with `NotImplementedError` instead — line 149
leaves `api_key` as `None`, and the base class then calls
`_prep_for_fetch`, which `RemoteAPIKey` never overrides. -/
theorem c8_counterexample :
    remoteInitOutcome (RemoteAPIKey.init (fun _ => true) (fun _ _ _ => .connFail "unused")
      "http://a.example" "make_key" { username := some "u" }) =
      some ErrTag.notImplErr := by
  rfl

/-- C10, counterexample: the claim predicts that an out-of-range explicit
`file_mode` with an existing key file resolves without error to `None`;
but with the existing file `"key.yaml"` and `file_mode := "yaml"`
construction crashes with `AttributeError` at line 80 (the
unrecognized-extension warning reads `self.logger` before it exists). -/
theorem c10_counterexample :
    fileInitOutcome (APIKeyFromFile.init none [("key.yaml", "stuff")]
      { api_key_location := some "key.yaml", file_mode := some "yaml" }) =
      some ErrTag.attrErr := by
  rfl

/-- C3, counterexample: the claim says a success response whose parsed
body is a mapping without an `api_key` entry resolves to the raw parsed
body; but with body `{"foo": "bar"}` the code sets the key to
`dict.get("api_key") = None` (line 151) and construction then fails with
`NotImplementedError` in the base class — the mapping is never exposed. -/
theorem c3_counterexample :
    remoteInitOutcome (RemoteAPIKey.init (fun _ => true)
      (fun _ _ _ => .resp { ok := true, text := "\x7b\x22foo\x22: \x22bar\x22\x7d" })
      "http://a.example" "make_key" { username := some "u", password := some "p" }) =
      some ErrTag.notImplErr := by
  rfl

/-- C7, counterexample: the claim predicts `InvalidURLError` for every
base URL that is not syntactically well-formed; but the empty string —
not a well-formed URL, as the validator here attests by rejecting every
string — skips validation entirely: line 160's
`if self._base_url and ...` guard is falsy, `_full_url` becomes
`"None/make_key"`, and construction proceeds to fail later with
`NotImplementedError`, never raising `InvalidURLError`. -/
theorem c7_counterexample :
    remoteInitOutcome (RemoteAPIKey.init (fun _ => false)
      (fun _ _ _ => .connFail "unused") "" "make_key" {}) =
      some ErrTag.notImplErr := by
  rfl

/-- C7 amended: a remote resolver whose nonempty base URL fails the
`validators.url` check raises `validators.ValidationError`
(`InvalidURLError`) during construction with an empty network-call
trace — the failure precedes any POST; the empty base URL, however,
skips validation (the truthiness guard of line 160), and with no
credentials and no literal key construction instead fails with
`NotImplementedError`, still with an empty network-call trace and with
`_full_url` set to the string `"None/" + endpoint`. -/
theorem c7_invalid_url (urlValid : String → Bool) (net net2 : Net)
    (base_url endpoint : String) (kw rkw : RemoteKwargs)
    (hne : base_url ≠ "") (hbad : urlValid base_url = false)
    (hrk : rkw.api_key = none) (hru : credsTruthy rkw = false) :
    (∃ st, RemoteAPIKey.init urlValid net base_url endpoint kw =
      .error (.validationError "Invalid URL", st) ∧ st.calls = []) ∧
    (∃ m st, RemoteAPIKey.init urlValid net2 "" endpoint rkw =
      .error (.notImplementedError m, st) ∧ st.full_url = "None" ++ "/" ++ endpoint ∧
      st.calls = []) := by
  constructor
  · refine ⟨{ base_url := base_url, create_key_endpoint := endpoint }, ?_, rfl⟩
    have h1 : (base_url != "") = true := bne_iff_ne.mpr hne
    simp [RemoteAPIKey.init, constructFullUrl, validatedBaseUrl, h1, hbad]
  · refine ⟨"this is meant to be implemented by a subclass",
      { base_url := "",
        create_key_endpoint := endpoint,
        full_url := "None" ++ "/" ++ endpoint,
        api_key := .null,
        logger := true,
        calls := [] }, ?_, rfl, rfl⟩
    unfold RemoteAPIKey.init constructFullUrl validatedBaseUrl remoteAssignAndSuper baseInitRemote
    rw [hrk]
    simp [hru, pyStrOpt, extractMappingKey, JsonValue.truthy]

/-- Witness for the amended C7: the base URL `"not a url"` is rejected
with `InvalidURLError` and no network call, while the empty base URL
sails past validation and fails with `NotImplementedError` instead,
under a validator that rejects both. -/
theorem c7_invalid_url_witness :
    (∃ st, RemoteAPIKey.init (fun _ => false) (fun _ _ _ => .connFail "unused")
      "not a url" "make_key" {} = .error (.validationError "Invalid URL", st) ∧
      st.calls = []) ∧
    (∃ m st, RemoteAPIKey.init (fun _ => false) (fun _ _ _ => .connFail "unused2")
      "" "make_key" {} = .error (.notImplementedError m, st) ∧
      st.full_url = "None" ++ "/" ++ "make_key" ∧ st.calls = []) :=
  c7_invalid_url (fun _ => false) (fun _ _ _ => .connFail "unused")
    (fun _ _ _ => .connFail "unused2") "not a url" "make_key" {} {}
    (by decide) rfl rfl rfl

/-- Helper: with a valid nonempty base URL and truthy credentials,
`RemoteAPIKey.__init__` reduces to the fetch followed by lines 150-153. -/
theorem remoteInit_with_creds (urlValid : String → Bool) (net : Net)
    (base_url endpoint u p : String) (kw : RemoteKwargs)
    (hval : urlValid base_url = true) (hne : base_url ≠ "")
    (hu : kw.username = some u) (hp : kw.password = some p)
    (hut : u ≠ "") (hpt : p ≠ "") :
    RemoteAPIKey.init urlValid net base_url endpoint kw =
      (match remoteFetchApiKey net (base_url ++ "/" ++ endpoint) u p
          { base_url := base_url, create_key_endpoint := endpoint,
            full_url := base_url ++ "/" ++ endpoint } with
       | .error e => .error e
       | .ok (v, st) => remoteAssignAndSuper kw v st) := by
  have h1 : (base_url != "") = true := bne_iff_ne.mpr hne
  have h2 : (u != "") = true := bne_iff_ne.mpr hut
  have h3 : (p != "") = true := bne_iff_ne.mpr hpt
  unfold RemoteAPIKey.init constructFullUrl validatedBaseUrl credsTruthy
  rw [hu, hp]
  simp [h1, h2, h3, hval, pyStrOpt]

/-- C9: when the POST receives a non-success HTTP response, resolution
raises `requests.exceptions.RequestException`
(`RemoteKeyRequestError`) carrying the response body. -/
theorem c9_request_error (urlValid : String → Bool) (net : Net)
    (base_url endpoint u p body : String) (kw : RemoteKwargs)
    (hval : urlValid base_url = true) (hne : base_url ≠ "")
    (hu : kw.username = some u) (hp : kw.password = some p)
    (hut : u ≠ "") (hpt : p ≠ "")
    (hnet : net (base_url ++ "/" ++ endpoint) u p =
      .resp { ok := false, text := body }) :
    ∃ st, RemoteAPIKey.init urlValid net base_url endpoint kw =
      .error (.requestException body, st) := by
  rw [remoteInit_with_creds urlValid net base_url endpoint u p kw hval hne hu hp hut hpt]
  unfold remoteFetchApiKey
  rw [hnet]
  exact ⟨_, rfl⟩

/-- Witness for C9: a 401-style response with body `"Unauthorized"`. -/
theorem c9_request_error_witness :
    ∃ st, RemoteAPIKey.init (fun _ => true)
      (fun _ _ _ => .resp { ok := false, text := "Unauthorized" })
      "http://a.example" "make_key" { username := some "u", password := some "p" } =
      .error (.requestException "Unauthorized", st) :=
  c9_request_error (fun _ => true)
    (fun _ _ _ => .resp { ok := false, text := "Unauthorized" })
    "http://a.example" "make_key" "u" "p" "Unauthorized" _
    rfl (by decide) rfl rfl (by decide) (by decide) rfl

/-- C8 amended: a resolution through the `get_api_key` entry point with a
falsy username or password fails with `AttributeError`
(`MissingCredentialsError`) for every transport, so before any network
call; direct construction without credentials also fails before any
network call (the trace is empty), but with `NotImplementedError`: line
149 leaves the key `None` and the base class reaches the
`_prep_for_fetch` stub, which `RemoteAPIKey` never overrides. -/
theorem c8_amended (urlValid : String → Bool) (net net2 : Net)
    (base_url endpoint : String) (kw : RemoteKwargs)
    (hcreds : credsTruthy kw = false) (hval : urlValid base_url = true)
    (hne : base_url ≠ "") (hk : kw.api_key = none) :
    RemoteAPIKey.getApiKey urlValid net base_url endpoint kw =
      .error (.attributeError "username or password were not passed in as kwargs") ∧
    (∃ m st, RemoteAPIKey.init urlValid net2 base_url endpoint kw =
      .error (.notImplementedError m, st) ∧ st.calls = []) := by
  have h1 : (base_url != "") = true := bne_iff_ne.mpr hne
  constructor
  · unfold RemoteAPIKey.getApiKey
    simp [hcreds]
  · refine ⟨"this is meant to be implemented by a subclass",
      { base_url := base_url, create_key_endpoint := endpoint,
        full_url := base_url ++ "/" ++ endpoint, api_key := .null,
        logger := true, calls := [] }, ?_, rfl⟩
    unfold RemoteAPIKey.init constructFullUrl validatedBaseUrl remoteAssignAndSuper baseInitRemote
    rw [hk]
    simp [hcreds, h1, hval, JsonValue.truthy, pyStrOpt, extractMappingKey]

/-- Witness for C8 at a password-less keyword set. -/
theorem c8_amended_witness :
    RemoteAPIKey.getApiKey (fun _ => true) (fun _ _ _ => .connFail "unused")
      "http://a.example" "make_key" { username := some "u" } =
      .error (.attributeError "username or password were not passed in as kwargs") ∧
    (∃ m st, RemoteAPIKey.init (fun _ => true) (fun _ _ _ => .connFail "unused2")
      "http://a.example" "make_key" { username := some "u" } =
      .error (.notImplementedError m, st) ∧ st.calls = []) :=
  c8_amended (fun _ => true) (fun _ _ _ => .connFail "unused")
    (fun _ _ _ => .connFail "unused2") "http://a.example" "make_key"
    { username := some "u" } rfl rfl (by decide) rfl

/-- Helper: a value that is not a mapping passes through lines 150-151
unchanged. -/
theorem extractMappingKey_of_ne_obj (v : JsonValue)
    (h : ∀ fields, v ≠ .obj fields) : extractMappingKey v = v := by
  cases v with
  | obj fields => exact absurd rfl (h fields)
  | null => rfl
  | bool b => rfl
  | num n => rfl
  | str s => rfl
  | arr xs => rfl

/-- C3 amended: for a success HTTP response, the body is parsed as JSON;
if the parsed body is a mapping with a truthy `api_key` entry, that entry
becomes the resolved key; if it is a mapping without an `api_key` entry,
the key becomes `None` and construction then fails with
`NotImplementedError` (the raw mapping is never exposed); if it is a
truthy non-mapping value, the raw parsed body becomes the resolved
key. -/
theorem c3_amended (urlValid : String → Bool) (net : Net)
    (base_url endpoint u p body : String) (kw : RemoteKwargs) (v : JsonValue)
    (hval : urlValid base_url = true) (hne : base_url ≠ "")
    (hu : kw.username = some u) (hp : kw.password = some p)
    (hut : u ≠ "") (hpt : p ≠ "") (hk : kw.api_key = none)
    (hnet : net (base_url ++ "/" ++ endpoint) u p = .resp { ok := true, text := body })
    (hparse : jsonLoads body = some v) :
    (∀ fields w, v = .obj fields → dictGet fields "api_key" = some w → w.truthy = true →
      ∃ st, RemoteAPIKey.init urlValid net base_url endpoint kw = .ok st ∧
        st.api_key = w) ∧
    (∀ fields, v = .obj fields → dictGet fields "api_key" = none →
      ∃ m st, RemoteAPIKey.init urlValid net base_url endpoint kw =
        .error (.notImplementedError m, st) ∧ st.api_key = .null) ∧
    ((∀ fields, v ≠ .obj fields) → v.truthy = true →
      ∃ st, RemoteAPIKey.init urlValid net base_url endpoint kw = .ok st ∧
        st.api_key = v) := by
  have hinit := remoteInit_with_creds urlValid net base_url endpoint u p kw hval hne hu hp hut hpt
  unfold remoteFetchApiKey at hinit
  rw [hnet] at hinit
  simp only [hparse] at hinit
  refine ⟨?_, ?_, ?_⟩
  · rintro fields w rfl hget hw
    refine ⟨{ base_url := base_url,
              create_key_endpoint := endpoint,
              full_url := base_url ++ "/" ++ endpoint,
              api_key := w,
              logger := true,
              calls := [(base_url ++ "/" ++ endpoint, u, p)] }, ?_, rfl⟩
    rw [hinit]
    unfold remoteAssignAndSuper baseInitRemote extractMappingKey
    rw [hk]
    simp [hget, hw]
  · rintro fields rfl hget
    refine ⟨"this is meant to be implemented by a subclass",
      { base_url := base_url,
        create_key_endpoint := endpoint,
        full_url := base_url ++ "/" ++ endpoint,
        api_key := .null,
        logger := true,
        calls := [(base_url ++ "/" ++ endpoint, u, p)] }, ?_, rfl⟩
    rw [hinit]
    unfold remoteAssignAndSuper baseInitRemote extractMappingKey
    rw [hk]
    simp [hget, JsonValue.truthy]
  · intro hobj hv
    have hm : extractMappingKey v = v := extractMappingKey_of_ne_obj v hobj
    refine ⟨{ base_url := base_url,
              create_key_endpoint := endpoint,
              full_url := base_url ++ "/" ++ endpoint,
              api_key := v,
              logger := true,
              calls := [(base_url ++ "/" ++ endpoint, u, p)] }, ?_, rfl⟩
    rw [hinit]
    unfold remoteAssignAndSuper baseInitRemote
    rw [hk]
    simp [hm, hv]

/-- Witness for the amended C3: HTTP 200 with body
`{"api_key": "xyz"}` resolves to `"xyz"`. -/
theorem c3_amended_witness :
    ∃ st, RemoteAPIKey.init (fun _ => true)
      (fun _ _ _ => .resp { ok := true, text := "\x7b\x22api_key\x22: \x22xyz\x22\x7d" })
      "http://a.example" "make_key" { username := some "u", password := some "p" } =
      .ok st ∧ st.api_key = .str "xyz" :=
  (c3_amended (fun _ => true)
    (fun _ _ _ => .resp { ok := true, text := "\x7b\x22api_key\x22: \x22xyz\x22\x7d" })
    "http://a.example" "make_key" "u" "p" "\x7b\x22api_key\x22: \x22xyz\x22\x7d"
    { username := some "u", password := some "p" }
    (.obj [("api_key", .str "xyz")])
    rfl (by decide) rfl rfl (by decide) (by decide) rfl rfl rfl).1
    [("api_key", .str "xyz")] (.str "xyz") rfl rfl rfl

/-- Helper: recording a read leaves the mode property unchanged. -/
theorem recordRead_file_mode (st : FileResolver) (p : String) :
    (recordRead st p).file_mode = st.file_mode := rfl

/-- Helper: recording a read leaves the configured sub-key unchanged. -/
theorem recordRead_json_key (st : FileResolver) (p : String) :
    (recordRead st p).json_key = st.json_key := rfl

/-- C4: a file-strategy fetch on an existing file returns, in text mode,
exactly the trimmed file contents; in json mode with no truthy sub-key
configured, the whole parsed document; in json mode with a sub-key
configured and the document a mapping, the value at that sub-key, or
`KeyError` (`KeyExtractionError`) when the sub-key is absent. -/
theorem c4_fetch_behavior (fs : FS) (st : FileResolver) (loc contents : String)
    (doc v : JsonValue) (k : String) (fields : List (String × JsonValue))
    (hloc : st.api_key_location = some loc) (hread : fsRead fs loc = some contents) :
    (st.file_mode = some "text" →
      fileFetchApiKey fs none st = .ok (.str (pyStrip contents), recordRead st loc)) ∧
    (st.file_mode = some "json" → jsonLoads contents = some doc →
      (jsonKeyTruthy st.json_key = false →
        fileFetchApiKey fs none st = .ok (doc, recordRead st loc)) ∧
      (st.json_key = some k → k ≠ "" → doc = .obj fields →
        (dictGet fields k = some v →
          fileFetchApiKey fs none st = .ok (v, recordRead st loc)) ∧
        (dictGet fields k = none →
          fileFetchApiKey fs none st = .error (.keyError k, recordRead st loc)))) := by
  have hfile : isFile fs loc = true := by simp [isFile, hread]
  have hpath : fileFetchApiKey fs none st =
      (if st.file_mode == some "text" then
         .ok (.str (pyStrip contents), recordRead st loc)
       else if st.file_mode == some "json" then
         match jsonLoads contents with
         | none => .error (.jsonDecodeError, recordRead st loc)
         | some doc =>
           if jsonKeyTruthy st.json_key then
             match pySubscript doc (st.json_key.getD "") with
             | .ok w => .ok (w, recordRead st loc)
             | .error e => .error (e, recordRead st loc)
           else .ok (doc, recordRead st loc)
       else .ok (.null, recordRead st loc)) := by
    unfold fileFetchApiKey
    rw [hloc]
    simp [hfile, hread, recordRead_file_mode, recordRead_json_key]
  constructor
  · intro hm
    rw [hpath, hm]
    simp
  · intro hm hparse
    rw [hpath, hm, hparse]
    constructor
    · intro hkt
      rw [hkt]
      simp
    · rintro hjk hkne rfl
      have hkt : jsonKeyTruthy st.json_key = true := by
        rw [hjk]; simp [jsonKeyTruthy, hkne]
      constructor
      · intro hget
        rw [hkt, hjk]
        simp [pySubscript, hget]
      · intro hget
        rw [hkt, hjk]
        simp [pySubscript, hget]

/-- Witness for C4: the file `{"api_key": "abc"}` with configured sub-key
`"api_key"` yields `"abc"`. -/
theorem c4_fetch_behavior_witness :
    fileFetchApiKey [("key.json", "\x7b\x22api_key\x22: \x22abc\x22\x7d")] none
      { api_key_location := some "key.json",
        file_mode_attr := some "json",
        json_key := some "api_key",
        logger := true } =
      .ok (.str "abc",
        recordRead { api_key_location := some "key.json",
                     file_mode_attr := some "json",
                     json_key := some "api_key",
                     logger := true } "key.json") :=
  (((c4_fetch_behavior [("key.json", "\x7b\x22api_key\x22: \x22abc\x22\x7d")]
      { api_key_location := some "key.json",
        file_mode_attr := some "json",
        json_key := some "api_key",
        logger := true }
      "key.json" "\x7b\x22api_key\x22: \x22abc\x22\x7d"
      (.obj [("api_key", .str "abc")]) (.str "abc") "api_key"
      [("api_key", .str "abc")] rfl rfl).2 rfl rfl).2 rfl (by decide) rfl).1 rfl

/-- C5 amended: for a key file location with a recognized extension that
does not reference an existing file, and no literal key, construction
fails with `FileNotFoundError` (`KeyFileNotFoundError`) and the stored
key is still `None` at the moment of the raise. -/
theorem c5_amended (fs : FS) (dl : Option String) (kw : FileKwargs) (loc : String)
    (hk : kw.api_key = none) (hloc : kw.api_key_location = some loc)
    (hsuf : pathSuffix loc = ".json" ∨ pathSuffix loc = ".txt")
    (hnofile : isFile fs loc = false) :
    ∃ st, APIKeyFromFile.init dl fs kw =
      .error (.fileNotFoundError "key file not found", st) ∧ st.api_key = .null := by
  refine ⟨{ logger := true,
            api_key := .null,
            api_key_location := some loc,
            file_mode_attr := some (kw.file_mode.getD "text"),
            json_key := kw.json_key }, ?_, rfl⟩
  have h2 : (fsRead fs loc).isSome = false := hnofile
  unfold APIKeyFromFile.init baseInitFile ensureKeyLocationIsSet fileFetchApiKey
  rw [hloc, hk]
  rcases hsuf with h | h <;>
    simp [h, hnofile, h2, JsonValue.truthy]

/-- Witness for the amended C5 at the nonexistent path `"missing.txt"`. -/
theorem c5_amended_witness :
    ∃ st, APIKeyFromFile.init none [] { api_key_location := some "missing.txt" } =
      .error (.fileNotFoundError "key file not found", st) ∧ st.api_key = .null :=
  c5_amended [] none { api_key_location := some "missing.txt" } "missing.txt"
    rfl rfl (Or.inr (by decide)) rfl

/-- C10 amended: for a key file location with a recognized extension, an
existing key file, no literal key and an explicit `file_mode` outside
`text`/`json`, construction completes without error, the stored key is
`None`, and the `file_mode` property yields no mode. -/
theorem c10_amended (fs : FS) (dl : Option String) (kw : FileKwargs)
    (loc m contents : String)
    (hk : kw.api_key = none) (hloc : kw.api_key_location = some loc)
    (hsuf : pathSuffix loc = ".json" ∨ pathSuffix loc = ".txt")
    (hm : kw.file_mode = some m) (hmt : m ≠ "text") (hmj : m ≠ "json")
    (hfile : fsRead fs loc = some contents) :
    ∃ st, APIKeyFromFile.init dl fs kw = .ok st ∧ st.api_key = .null ∧
      st.file_mode = none := by
  have hbt : (m == "text") = false := by simp [hmt]
  have hbj : (m == "json") = false := by simp [hmj]
  refine ⟨{ logger := true,
            api_key := .null,
            api_key_location := some loc,
            file_mode_attr := some m,
            json_key := kw.json_key,
            reads := [loc] }, ?_, rfl, ?_⟩
  · unfold APIKeyFromFile.init baseInitFile ensureKeyLocationIsSet fileFetchApiKey
    rw [hloc, hk, hm]
    rcases hsuf with h | h <;>
      simp [h, isFile, hfile, JsonValue.truthy, FileResolver.file_mode,
        hbt, hbj, recordRead]
  · simp [FileResolver.file_mode, hbt, hbj]

/-- Witness for the amended C10: existing `"key.txt"` with explicit mode
`"yaml"` resolves without error to a `None` key. -/
theorem c10_amended_witness :
    ∃ st, APIKeyFromFile.init none [("key.txt", "stuff")]
      { api_key_location := some "key.txt", file_mode := some "yaml" } = .ok st ∧
      st.api_key = .null ∧ st.file_mode = none :=
  c10_amended [("key.txt", "stuff")] none
    { api_key_location := some "key.txt", file_mode := some "yaml" }
    "key.txt" "yaml" "stuff" rfl rfl (Or.inr (by decide)) rfl
    (by decide) (by decide) rfl

/-- C1 amended: a base- or file-strategy resolver built with a truthy
literal key and a location with a recognized extension exposes exactly
that literal and never opens a file (empty read trace), for every file
mode, sub-key, file system and default location; the remote strategy
instead rejects any construction whose keywords contain a literal
`api_key` — with falsy credentials it raises `TypeError` at the
`super()` call of line 153 before any network call (empty call trace). -/
theorem c1_amended (fs : FS) (dl : Option String) (kw : FileKwargs)
    (v w : JsonValue) (loc : String)
    (hk : kw.api_key = some v) (hv : v.truthy = true)
    (hloc : kw.api_key_location = some loc)
    (hsuf : pathSuffix loc = ".json" ∨ pathSuffix loc = ".txt")
    (urlValid : String → Bool) (net : Net) (base_url endpoint : String)
    (rkw : RemoteKwargs)
    (hrk : rkw.api_key = some w) (hru : credsTruthy rkw = false)
    (hurl : urlValid base_url = true) (hne : base_url ≠ "") :
    (∃ st, APIKeyFromFile.init dl fs kw = .ok st ∧ st.api_key = v ∧
      st.reads = []) ∧
    (∃ m st, RemoteAPIKey.init urlValid net base_url endpoint rkw =
      .error (.typeError m, st) ∧ st.calls = []) := by
  constructor
  · refine ⟨{ logger := true,
              api_key := v,
              api_key_location := some loc,
              file_mode_attr := some (kw.file_mode.getD "text"),
              json_key := kw.json_key }, ?_, rfl, rfl⟩
    unfold APIKeyFromFile.init baseInitFile
    rw [hloc, hk]
    rcases hsuf with h | h <;> simp [h, hv]
  · have h1 : (base_url != "") = true := bne_iff_ne.mpr hne
    refine ⟨"init got multiple values for keyword argument api_key",
      { base_url := base_url,
        create_key_endpoint := endpoint,
        full_url := base_url ++ "/" ++ endpoint,
        api_key := .null,
        logger := false,
        calls := [] }, ?_, rfl⟩
    unfold RemoteAPIKey.init constructFullUrl validatedBaseUrl remoteAssignAndSuper
    rw [hrk]
    simp [hru, h1, hurl, pyStrOpt, extractMappingKey]

/-- Witness for the amended C1: literal `"lit"` is exposed unchanged by
the file strategy with no file read, while the remote strategy rejects
the same literal with `TypeError` and no network call. -/
theorem c1_amended_witness :
    (∃ st, APIKeyFromFile.init none []
      { api_key := some (.str "lit"), api_key_location := some "key.txt" } = .ok st ∧
      st.api_key = .str "lit" ∧ st.reads = []) ∧
    (∃ m st, RemoteAPIKey.init (fun _ => true) (fun _ _ _ => .connFail "unused")
      "http://a.example" "make_key" { api_key := some (.str "lit") } =
      .error (.typeError m, st) ∧ st.calls = []) :=
  c1_amended [] none { api_key := some (.str "lit"), api_key_location := some "key.txt" }
    (.str "lit") (.str "lit") "key.txt" rfl rfl rfl (Or.inr (by decide))
    (fun _ => true) (fun _ _ _ => .connFail "unused") "http://a.example" "make_key"
    { api_key := some (.str "lit") } rfl rfl rfl (by decide)
